import Mathlib

/-!
Shallow embedding of the Book Availability Resolution Engine
(`src/services/calilApi.ts`, the `CalilApiService` variant exposing
`searchBookInCity`).  Network transport (`fetch`) and the JSON parser
(`JSON.parse`) are external collaborators: each network call is modelled by an
explicit outcome value (transport failure with an HTTP status, a decode
failure, or the decoded payload), and wire text handling for the JSONP
decoder is modelled at the string level.  JavaScript strings are modelled by
`String` (a list of characters); JavaScript objects used as string-keyed maps
are modelled by insertion-ordered association lists, over which `for ... in`
iterates in order.
-/

/-- One library record as produced by the directory endpoint
(interface `LibraryInfo` in the source: eleven string fields). -/
structure LibraryInfo where
  libid : String
  formal : String
  short : String
  systemid : String
  systemname : String
  libkey : String
  category : String
  pref : String
  city : String
  address : String
  url_pc : String
deriving DecidableEq

/-- Helper to build a `LibraryInfo` from the three fields the engine
actually reads, leaving the rest empty. -/
def mkLibrary (systemid libkey formal : String) : LibraryInfo :=
  ⟨"", formal, "", systemid, "", libkey, "", "", "", "", ""⟩

/-- Per-system block of a check response: `status`, the per-library-key map
of lending-status strings, and an optional reservation URL template.
`libkey` is `Option` because the source defensively checks
`if (!systemData.libkey) continue`. -/
structure SystemData where
  status : String
  libkey : Option (List (String × String))
  reserveurl : Option String
deriving DecidableEq

/-- Decoded check/poll response (interface `BookResponse` in the source).
`cont` models the `continue` field (typed `0 | 1`, checked with `=== 0` /
`=== 1`); `books` is `Option` because the source defensively checks
`if (!bookResponse.books ...)`. -/
structure BookResponse where
  session : String
  cont : Nat
  books : Option (List (String × List (String × SystemData)))
deriving DecidableEq

/-- One system's value in the object-shaped directory payload
(object keyed by system id, each value holding a per-library-key mapping). -/
structure SystemRecord where
  systemname : String
  libkey : List (String × LibraryInfo)
deriving DecidableEq

/-- Decoded directory payload: either a flat JSON array of library records
or a JSON object keyed by system.  `getLibraries` only tests
`Array.isArray` on it and never inspects the object variant's contents. -/
inductive DirPayload where
  | arr (libs : List LibraryInfo)
  | obj (systems : List (String × SystemRecord))
deriving DecidableEq

/-- Number of library records contained in a decoded directory payload. -/
def dirPayloadLibraryCount : DirPayload → Nat
  | DirPayload.arr libs => libs.length
  | DirPayload.obj systems => (systems.map (fun s => s.2.libkey.length)).sum

/-- Outcome of the directory fetch-and-decode step, as seen by
`getLibraries`: a non-ok transport response, a `JSON.parse` failure, or a
decoded payload. -/
inductive DirOutcome where
  | transportError (status : Nat)
  | decodeError (message : String)
  | payload (value : DirPayload)
deriving DecidableEq

/-- Outcome of one check/poll round's fetch-and-decode step. -/
inductive RoundOutcome where
  | transportError (status : Nat)
  | decodeError (message : String)
  | response (r : BookResponse)
deriving DecidableEq

/-- One entry of the merged report (`result.libraries.push({...})`). -/
structure LibEntry where
  name : String
  status : String
  reserveUrl : Option String
deriving DecidableEq

/-- The merged report (`{ isbn, libraries }`). -/
structure BookReport where
  isbn : String
  libraries : List LibEntry
deriving DecidableEq

/-- Value returned by `searchBookInCity`: either an object with an `error`
field or the merged report. -/
inductive SearchOutcome where
  | err (message : String)
  | report (r : BookReport)
deriving DecidableEq

/-- Message of the error thrown on a non-ok transport response:
`API call failed with status: ${status}`. -/
def apiFailMsg (status : Nat) : String :=
  "API call failed with status: " ++ toString status

/-- Message of the error thrown when the poll budget is exhausted:
`Polling timed out after ${maxRetries} attempts`. -/
def pollTimeoutMsg (maxRetries : Nat) : String :=
  "Polling timed out after " ++ toString maxRetries ++ " attempts"

/-- Error value returned when an area has no libraries:
`No libraries found in ${pref}, ${city}`. -/
def noLibrariesMsg (pref city : String) : String :=
  "No libraries found in " ++ pref ++ ", " ++ city

/-- JavaScript `text.startsWith(p)`. -/
def jsStartsWith (s p : String) : Bool := p.data.isPrefixOf s.data

/-- JavaScript `text.endsWith(p)`. -/
def jsEndsWith (s p : String) : Bool := p.data.isSuffixOf s.data

/-- JavaScript `s.replace(anchored-leading-regex, '')`: remove `pre` when it
is a leading occurrence, otherwise leave the text unchanged. -/
def replaceLeading (s pre : String) : String :=
  if jsStartsWith s pre then ⟨s.data.drop pre.data.length⟩ else s

/-- JavaScript `s.replace(anchored-trailing-regex, '')`: remove `suf` when it
is a trailing occurrence, otherwise leave the text unchanged. -/
def replaceTrailing (s suf : String) : String :=
  if jsEndsWith s suf then ⟨s.data.take (s.data.length - suf.data.length)⟩ else s

/-- The text handed to `JSON.parse` by `parseJsonpResponse`: when the text
both starts with `callback(` and ends with `);`, strip that one wrapping
layer; otherwise parse the text as-is. -/
def parseJsonpText (text : String) : String :=
  if jsStartsWith text "callback(" && jsEndsWith text ");" then
    replaceTrailing (replaceLeading text "callback(") ");"
  else text

/-- A JSONP-style wrapping `token(json);` of a JSON document. -/
def wrapJsonp (token json : String) : String := token ++ "(" ++ json ++ ");"

/-- The dollar sign, the escape lead-in of ECMAScript GetSubstitution. -/
def dollarChar : Char := Char.ofNat 36

/-- The ampersand: `$&` denotes the matched substring. -/
def ampChar : Char := Char.ofNat 38

/-- The backquote: a dollar followed by it denotes the text before the match. -/
def backquoteChar : Char := Char.ofNat 96

/-- The single quote: a dollar followed by it denotes the text after the match. -/
def singleQuoteChar : Char := Char.ofNat 39

/-- ECMAScript GetSubstitution as it applies to a string-pattern
`String.prototype.replace`: the replacement text is scanned for dollar
escapes — a doubled dollar yields one dollar, dollar-ampersand yields the
matched substring, dollar-backquote yields the text before the match,
dollar-quote yields the text after the match; every other dollar (including
`$n` digit references, which have no capture to refer to for a string
pattern, and `$<`, with no named captures) passes through literally. -/
def getSubstitution (matched before after : List Char) : List Char → List Char
  | [] => []
  | c :: cs =>
      if c = dollarChar then
        match cs with
        | [] => [c]
        | d :: rest =>
            if d = dollarChar then dollarChar :: getSubstitution matched before after rest
            else if d = ampChar then matched ++ getSubstitution matched before after rest
            else if d = backquoteChar then before ++ getSubstitution matched before after rest
            else if d = singleQuoteChar then after ++ getSubstitution matched before after rest
            else c :: getSubstitution matched before after (d :: rest)
      else c :: getSubstitution matched before after cs

/-- Start index of the first match of `pat` in a text, if any. -/
def findMatchPos (pat : List Char) : List Char → Option Nat
  | [] => if pat.isPrefixOf ([] : List Char) then some 0 else none
  | c :: cs =>
      if pat.isPrefixOf (c :: cs) then some 0
      else (findMatchPos pat cs).map (fun n => n + 1)

/-- First-occurrence replacement on character lists: the semantics of
JavaScript `s.replace(pat, rep)` with a plain-string pattern.  Only the
first occurrence is replaced, and the replacement text undergoes the
GetSubstitution escape processing against the matched position. -/
def listReplaceFirst (pat rep s : List Char) : List Char :=
  match findMatchPos pat s with
  | none => s
  | some pos =>
      s.take pos ++ getSubstitution pat (s.take pos) (s.drop (pos + pat.length)) rep
        ++ s.drop (pos + pat.length)

/-- JavaScript `s.replace(pat, rep)` with a plain-string pattern. -/
def jsReplace (s pat rep : String) : String :=
  ⟨listReplaceFirst pat.data rep.data s.data⟩

/-- `pat` matches somewhere in `s` (at some start position). -/
def hasMatch (pat : List Char) : List Char → Bool
  | [] => pat.isPrefixOf ([] : List Char)
  | c :: cs => pat.isPrefixOf (c :: cs) || hasMatch pat cs

/-- `pat` matches at a start position strictly inside `a` in the text
`a ++ pat ++ b` (i.e. strictly before the designated occurrence). -/
def hasEarlyMatch (pat : List Char) (a b : List Char) : Bool :=
  match a with
  | [] => false
  | c :: a2 => pat.isPrefixOf (c :: (a2 ++ pat ++ b)) || hasEarlyMatch pat a2 b

/-- JavaScript object indexing on a string-keyed map modelled as an
association list. -/
def assocLookup {α : Type} (m : List (String × α)) (k : String) : Option α :=
  match m with
  | [] => none
  | (k2, v) :: rest => if k2 == k then some v else assocLookup rest k

/-- Insertion-order deduplication: `[...new Set(xs)]`. -/
def dedupFirstAux (seen : List String) : List String → List String
  | [] => []
  | x :: xs =>
      if x ∈ seen then dedupFirstAux seen xs
      else x :: dedupFirstAux (seen ++ [x]) xs

/-- `[...new Set(xs)]`. -/
def dedupFirst (xs : List String) : List String := dedupFirstAux [] xs

/-- `[...new Set(libraries.map(lib => lib.systemid))].join(',')`. -/
def joinSystemIds (libraries : List LibraryInfo) : String :=
  String.intercalate "," (dedupFirst (libraries.map LibraryInfo.systemid))

/-- `getLibraries(pref, city?)` after the fetch-and-decode step: a non-ok
response or a decode failure is thrown (propagated by the rethrowing catch);
a decoded payload is normalized by `Array.isArray(libraries) ? libraries : []`. -/
def getLibraries (pref : String) (city : Option String) (resp : DirOutcome) :
    Except String (List LibraryInfo) :=
  match resp with
  | DirOutcome.transportError s => Except.error (apiFailMsg s)
  | DirOutcome.decodeError m => Except.error m
  | DirOutcome.payload p =>
      match p with
      | DirPayload.arr libs => Except.ok libs
      | DirPayload.obj _ => Except.ok []

/-- The placeholder `{{isbn}}` (braces written as character escapes). -/
def phIsbn : String := "\x7b\x7bisbn\x7d\x7d"

/-- The placeholder `{{systemid}}`. -/
def phSystemid : String := "\x7b\x7bsystemid\x7d\x7d"

/-- The placeholder `{{libkey}}`. -/
def phLibkey : String := "\x7b\x7blibkey\x7d\x7d"

/-- Reservation-URL construction of `formatBookResult`:
`if (systemData.reserveurl && lendingStatus !== '蔵書なし')` build the URL by
substituting the three placeholders, `else` leave it `null`.  JavaScript
truthiness of a string is being non-empty. -/
def buildReserveUrl (reserveurl : Option String)
    (lendingStatus isbn systemId libKey : String) : Option String :=
  match reserveurl with
  | none => none
  | some t =>
      if ¬ t = "" ∧ ¬ lendingStatus = "蔵書なし" then
        some (jsReplace (jsReplace (jsReplace t phIsbn isbn) phSystemid systemId)
          phLibkey libKey)
      else none

/-- Inner loop of `formatBookResult`: `for (const libKey in systemData.libkey)`.
Keys with no matching library record are skipped; the lending status is
`systemData.libkey[libKey] || '不明'` (the `||` fallback fires exactly when
the per-key string is empty). -/
def formatLibkeys (systemLibraries : List LibraryInfo) (reserveurl : Option String)
    (isbn systemId : String) : List (String × String) → List LibEntry
  | [] => []
  | (libKey, v) :: rest =>
      match systemLibraries.find? (fun lib => lib.libkey == libKey) with
      | none => formatLibkeys systemLibraries reserveurl isbn systemId rest
      | some libraryInfo =>
          ⟨libraryInfo.formal, if v = "" then "不明" else v,
            buildReserveUrl reserveurl (if v = "" then "不明" else v) isbn systemId libKey⟩
            :: formatLibkeys systemLibraries reserveurl isbn systemId rest

/-- Outer loop of `formatBookResult`: `for (const systemId in bookData)`.
Systems whose status is neither `OK` nor `Cache` are skipped (`continue`), as
are systems without a `libkey` map. -/
def formatSystems (libraries : List LibraryInfo) (isbn : String) :
    List (String × SystemData) → List LibEntry
  | [] => []
  | (systemId, sdata) :: rest =>
      if ¬ sdata.status = "OK" ∧ ¬ sdata.status = "Cache" then
        formatSystems libraries isbn rest
      else
        match sdata.libkey with
        | none => formatSystems libraries isbn rest
        | some lk =>
            formatLibkeys (libraries.filter (fun lib => lib.systemid == systemId))
                sdata.reserveurl isbn systemId lk
              ++ formatSystems libraries isbn rest

/-- `formatBookResult(bookResponse, libraries, isbn)`.  The body of the
source function is exception-free, so its defensive catch is unreachable and
the model is total. -/
def formatBookResult (bookResponse : BookResponse) (libraries : List LibraryInfo)
    (isbn : String) : BookReport :=
  match bookResponse.books with
  | none => ⟨isbn, []⟩
  | some books =>
      match assocLookup books isbn with
      | none => ⟨isbn, []⟩
      | some bookData => ⟨isbn, formatSystems libraries isbn bookData⟩

deriving instance DecidableEq for Except

/-- The poll loop of `pollResults`, in fuel form: round `i` (0-based) runs
only while `i < maxRetries` (the remaining iteration count `fuel` equals
`maxRetries - i` along the loop); a non-ok transport response or a decode
failure is thrown; a response with `continue === 0` is returned; otherwise
the loop continues.  Exhausting the budget throws the timeout error. -/
def pollGo (rounds : Nat → RoundOutcome) (maxRetries : Nat) :
    Nat → Nat → Except String BookResponse
  | _, 0 => Except.error (pollTimeoutMsg maxRetries)
  | i, fuel + 1 =>
      match rounds i with
      | RoundOutcome.transportError s => Except.error (apiFailMsg s)
      | RoundOutcome.decodeError m => Except.error m
      | RoundOutcome.response r =>
          if r.cont = 0 then Except.ok r else pollGo rounds maxRetries (i + 1) fuel

/-- `pollResults(session, maxRetries)` with the per-round outcomes supplied
explicitly; the session token only shapes the request URL. -/
def pollResults (rounds : Nat → RoundOutcome) (maxRetries : Nat) :
    Except String BookResponse :=
  pollGo rounds maxRetries 0 maxRetries

/-- `checkBooks(isbn, systemids)`: on a decoded initial response, poll
(with the default budget of 5) iff `result.continue === 1`, else return the
response as-is.  The isbn and system-id list only shape the request URL. -/
def checkBooks (isbn systemids : String) (initial : RoundOutcome)
    (rounds : Nat → RoundOutcome) : Except String BookResponse :=
  match initial with
  | RoundOutcome.transportError s => Except.error (apiFailMsg s)
  | RoundOutcome.decodeError m => Except.error m
  | RoundOutcome.response r =>
      if r.cont = 1 then pollResults rounds 5 else Except.ok r

/-- `searchBookInCity(isbn, pref, city)`: directory lookup, zero-library
short-circuit, check/poll, merge.  The outer catch turns any thrown error
into a returned `{ error: message }` value. -/
def searchBookInCity (isbn pref city : String) (dir : DirOutcome)
    (check : RoundOutcome) (rounds : Nat → RoundOutcome) : SearchOutcome :=
  match getLibraries pref (some city) dir with
  | Except.error e => SearchOutcome.err e
  | Except.ok libraries =>
      if libraries.length = 0 then
        SearchOutcome.err (noLibrariesMsg pref city)
      else
        match checkBooks isbn (joinSystemIds libraries) check rounds with
        | Except.error e => SearchOutcome.err e
        | Except.ok result => SearchOutcome.report (formatBookResult result libraries isbn)

/-! ## Helper lemmas -/

lemma isPrefixOf_append_self (a t : List Char) : a.isPrefixOf (a ++ t) = true := by
  simp [ List.isPrefixOf_iff_prefix]

lemma isSuffixOf_append_self (a t : List Char) : t.isSuffixOf (a ++ t) = true := by
  simp [ List.isSuffixOf_iff_suffix]

lemma string_mk_data (s : String) : String.mk s.data = s := rfl

lemma wrapJsonp_data (json : String) :
    (wrapJsonp "callback" json).data = "callback(".data ++ (json.data ++ ");".data) := by
  show ((("callback" ++ "(") ++ json) ++ ");").data = _
  rw [ String.data_append, String.data_append, String.data_append]
  rw [ show ("callback".data ++ "(".data : List Char) = "callback(".data from by decide]
  rw [ List.append_assoc]

/-- Stripping the wrapper from any wrapped document recovers the document:
the same text is handed to `JSON.parse` in the wrapped and unwrapped case. -/
lemma parseJsonpText_wrap (json : String) :
    parseJsonpText (wrapJsonp "callback" json) = json := by
  have hsw : jsStartsWith (wrapJsonp "callback" json) "callback(" = true := by
    unfold jsStartsWith
    rw [wrapJsonp_data, isPrefixOf_append_self]
  have hew : jsEndsWith (wrapJsonp "callback" json) ");" = true := by
    unfold jsEndsWith
    rw [wrapJsonp_data, ← List.append_assoc, isSuffixOf_append_self]
  unfold parseJsonpText
  rw [hsw, hew]
  simp only [Bool.and_self, if_pos]
  have hlead : replaceLeading (wrapJsonp "callback" json) "callback(" =
      String.mk (json.data ++ ");".data) := by
    unfold replaceLeading
    rw [hsw]
    simp only [if_pos]
    rw [wrapJsonp_data, List.drop_left]
  rw [hlead]
  unfold replaceTrailing
  have hew2 : jsEndsWith (String.mk (json.data ++ ");".data)) ");" = true := by
    unfold jsEndsWith
    exact isSuffixOf_append_self json.data ");".data
  rw [hew2]
  simp only [if_pos]
  show String.mk ((json.data ++ ");".data).take
      ((json.data ++ ");".data).length - ");".data.length)) = json
  rw [ List.length_append, Nat.add_sub_cancel, List.take_left]

lemma parseJsonpText_of_not_wrapped (text : String)
    (h : (jsStartsWith text "callback(" && jsEndsWith text ");") = false) :
    parseJsonpText text = text := by
  unfold parseJsonpText
  rw [h]
  simp

/-- C6: for every valid JSON document `json` (formalized by the fact that no
valid JSON document can begin with the wrapper prefix `callback(`) and the
accepted wrapper token (`callback` is the only accepted token), decoding the
wrapped text and decoding the document directly hand the identical text to
`JSON.parse`, hence yield identical structures; exactly one wrapping layer is
stripped, and only when both the recognized prefix and the trailing `);` are
present — otherwise the text is parsed as-is. -/
theorem C6_decoder_round_trip (token json text : String)
    (htoken : token = "callback")
    (hjson : jsStartsWith json "callback(" = false)
    (htext : (jsStartsWith text "callback(" && jsEndsWith text ");") = false) :
    parseJsonpText (wrapJsonp token json) = json ∧
    parseJsonpText json = json ∧
    parseJsonpText (wrapJsonp token (wrapJsonp token json)) = wrapJsonp token json ∧
    parseJsonpText text = text := by
  subst htoken
  refine ⟨parseJsonpText_wrap json, ?_, parseJsonpText_wrap _, parseJsonpText_of_not_wrapped text htext⟩
  apply parseJsonpText_of_not_wrapped
  rw [hjson]
  rfl

/-- Witness for C6 at concrete inputs: `[1]` is a valid JSON document
(and does not begin with the wrapper prefix), `callback([1])` has the prefix
but not the trailing `);`. -/
theorem C6_witness :
    ("callback" : String) = "callback" ∧
    jsStartsWith "[1]" "callback(" = false ∧
    (jsStartsWith "callback([1])" "callback(" && jsEndsWith "callback([1])" ");") = false ∧
    (parseJsonpText (wrapJsonp "callback" "[1]") = "[1]" ∧
     parseJsonpText "[1]" = "[1]" ∧
     parseJsonpText (wrapJsonp "callback" (wrapJsonp "callback" "[1]")) = wrapJsonp "callback" "[1]" ∧
     parseJsonpText "callback([1])" = "callback([1])") :=
  ⟨rfl, by decide, by decide,
    C6_decoder_round_trip "callback" "[1]" "callback([1])" rfl (by decide) (by decide)⟩

/-- A replacement text containing no dollar sign passes through
GetSubstitution unchanged. -/
lemma getSubstitution_of_no_dollar (matched before after : List Char) :
    ∀ rep, ¬ dollarChar ∈ rep → getSubstitution matched before after rep = rep := by
  intro rep
  induction rep with
  | nil => intro _; rfl
  | cons c cs ih =>
      intro h
      have hc : ¬ c = dollarChar := by
        intro he
        exact h (he ▸ List.mem_cons_self c cs)
      unfold getSubstitution
      rw [if_neg hc, ih (fun hm => h (List.mem_cons_of_mem c hm))]

lemma findMatchPos_of_isPrefixOf (pat s : List Char) (h : pat.isPrefixOf s = true) :
    findMatchPos pat s = some 0 := by
  cases s with
  | nil => simp [findMatchPos, h]
  | cons c cs => simp [findMatchPos, h]

/-- A pattern that matches nowhere has no match position. -/
lemma findMatchPos_of_no_match (pat : List Char) :
    ∀ s, hasMatch pat s = false → findMatchPos pat s = none := by
  intro s
  induction s with
  | nil =>
      intro h
      unfold hasMatch at h
      simp [findMatchPos, h]
  | cons c cs ih =>
      intro h
      unfold hasMatch at h
      rw [ Bool.or_eq_false_iff] at h
      unfold findMatchPos
      rw [h.1, ih h.2]
      rfl

/-- A pattern that matches nowhere is not replaced: the text is unchanged. -/
lemma listReplaceFirst_of_no_match (pat rep : List Char)
    (s : List Char) (h : hasMatch pat s = false) :
    listReplaceFirst pat rep s = s := by
  unfold listReplaceFirst
  rw [findMatchPos_of_no_match pat s h]

/-- The first match in `a ++ pat ++ b` sits at index `a.length` when no
match starts strictly inside `a`. -/
lemma findMatchPos_splice (pat : List Char) :
    ∀ a b, hasEarlyMatch pat a b = false →
      findMatchPos pat (a ++ pat ++ b) = some a.length := by
  intro a
  induction a with
  | nil =>
      intro b _
      simp only [List.nil_append]
      rw [findMatchPos_of_isPrefixOf pat (pat ++ b) (isPrefixOf_append_self pat b)]
      rfl
  | cons c a2 ih =>
      intro b h
      unfold hasEarlyMatch at h
      rw [ Bool.or_eq_false_iff] at h
      have hshape : (c :: a2) ++ pat ++ b = c :: (a2 ++ pat ++ b) := by
        simp
      rw [hshape]
      unfold findMatchPos
      rw [h.1, ih b h.2]
      rfl

/-- First-occurrence replacement splices the substituted replacement at the
designated occurrence when no match starts strictly before it; the text on
either side — including any later occurrence of the pattern — is unchanged. -/
lemma listReplaceFirst_splice (pat rep : List Char) (a b : List Char)
    (h : hasEarlyMatch pat a b = false) :
    listReplaceFirst pat rep (a ++ pat ++ b) = a ++ getSubstitution pat a b rep ++ b := by
  have htake : (a ++ pat ++ b).take a.length = a := by
    rw [ List.append_assoc, List.take_left]
  have hdrop : (a ++ pat ++ b).drop (a.length + pat.length) = b := by
    rw [ show a.length + pat.length = (a ++ pat).length from (List.length_append a pat).symm]
    rw [ List.drop_left]
  unfold listReplaceFirst
  rw [findMatchPos_splice pat a b h]
  show (a ++ pat ++ b).take a.length
      ++ getSubstitution pat ((a ++ pat ++ b).take a.length)
          ((a ++ pat ++ b).drop (a.length + pat.length)) rep
      ++ (a ++ pat ++ b).drop (a.length + pat.length)
    = a ++ getSubstitution pat a b rep ++ b
  rw [htake, hdrop]

/-- String-level version of `listReplaceFirst_splice`. -/
lemma jsReplace_splice (t1 t2 pat rep : String)
    (h : hasEarlyMatch pat.data t1.data t2.data = false) :
    jsReplace (t1 ++ pat ++ t2) pat rep
      = t1 ++ String.mk (getSubstitution pat.data t1.data t2.data rep.data) ++ t2 := by
  apply String.ext
  show listReplaceFirst pat.data rep.data ((t1 ++ pat ++ t2).data)
    = (t1 ++ String.mk (getSubstitution pat.data t1.data t2.data rep.data) ++ t2).data
  rw [ String.data_append, String.data_append, String.data_append, String.data_append]
  exact listReplaceFirst_splice pat.data rep.data t1.data t2.data h

/-- When the replacement value contains no dollar sign, the substitution is
verbatim. -/
lemma jsReplace_splice_verbatim (t1 t2 pat rep : String)
    (h : hasEarlyMatch pat.data t1.data t2.data = false)
    (hd : ¬ dollarChar ∈ rep.data) :
    jsReplace (t1 ++ pat ++ t2) pat rep = t1 ++ rep ++ t2 := by
  rw [jsReplace_splice t1 t2 pat rep h]
  rw [getSubstitution_of_no_dollar pat.data t1.data t2.data rep.data hd]

/-- String-level version of `listReplaceFirst_of_no_match`. -/
lemma jsReplace_of_no_match (s pat rep : String)
    (h : hasMatch pat.data s.data = false) :
    jsReplace s pat rep = s := by
  apply String.ext
  show listReplaceFirst pat.data rep.data s.data = s.data
  exact listReplaceFirst_of_no_match pat.data rep.data s.data h

/-- A string with a non-empty factor is non-empty. -/
lemma append_mid_ne_empty (t1 mid t2 : String) (h : ¬ mid.data = []) :
    ¬ (t1 ++ mid ++ t2) = "" := by
  intro he
  have hd : (t1 ++ mid ++ t2).data = ("" : String).data := by rw [he]
  rw [ String.data_append, String.data_append] at hd
  have : t1.data ++ mid.data ++ t2.data = [] := hd
  rcases List.append_eq_nil.mp this with ⟨h1, h2⟩
  rcases List.append_eq_nil.mp h1 with ⟨h3, h4⟩
  exact h h4

lemma buildReserveUrl_noHoldings (ru : Option String) (isbn systemId libKey : String) :
    buildReserveUrl ru "蔵書なし" isbn systemId libKey = none := by
  cases ru with
  | none => rfl
  | some t => simp [buildReserveUrl]

/-- Every entry pushed by the inner merger loop carries a reservation URL
built by `buildReserveUrl` from the system template and that entry's own
resolved status. -/
lemma formatLibkeys_reserveUrl (systemLibraries : List LibraryInfo)
    (ru : Option String) (isbn systemId : String) :
    ∀ lk entry, entry ∈ formatLibkeys systemLibraries ru isbn systemId lk →
      ∃ libKey, entry.reserveUrl = buildReserveUrl ru entry.status isbn systemId libKey := by
  intro lk
  induction lk with
  | nil => intro entry h; simp [formatLibkeys] at h
  | cons hd tl ih =>
      intro entry h
      obtain ⟨libKey, v⟩ := hd
      unfold formatLibkeys at h
      cases hfind : systemLibraries.find? (fun lib => lib.libkey == libKey) with
      | none =>
          rw [hfind] at h
          exact ih entry h
      | some libraryInfo =>
          rw [hfind] at h
          rcases List.mem_cons.mp h with he | hm
          · subst he
            exact ⟨libKey, rfl⟩
          · exact ih entry hm

/-- Every entry emitted by the outer merger loop carries a reservation URL
built by `buildReserveUrl` from some system's template and the entry's own
resolved status. -/
lemma formatSystems_reserveUrl (libraries : List LibraryInfo) (isbn : String) :
    ∀ l entry, entry ∈ formatSystems libraries isbn l →
      ∃ ru systemId libKey,
        entry.reserveUrl = buildReserveUrl ru entry.status isbn systemId libKey := by
  intro l
  induction l with
  | nil => intro entry h; simp [formatSystems] at h
  | cons hd tl ih =>
      intro entry h
      obtain ⟨systemId, sdata⟩ := hd
      unfold formatSystems at h
      by_cases hs : ¬ sdata.status = "OK" ∧ ¬ sdata.status = "Cache"
      · rw [if_pos hs] at h
        exact ih entry h
      · rw [if_neg hs] at h
        cases hlk : sdata.libkey with
        | none =>
            rw [hlk] at h
            exact ih entry h
        | some lk =>
            rw [hlk] at h
            rcases List.mem_append.mp h with hm | hm
            · obtain ⟨libKey, he⟩ := formatLibkeys_reserveUrl _ _ _ _ lk entry hm
              exact ⟨sdata.reserveurl, systemId, libKey, he⟩
            · exact ih entry hm

/-- Regrouping of string concatenation. -/
lemma strRegroup3 (x y z : String) : x ++ (y ++ z) = x ++ y ++ z := by
  apply String.ext
  simp [ String.data_append, List.append_assoc]

/-- C8 counterexample: with isbn value `$$` and template `u/\x7b\x7bisbn\x7d\x7d`,
the program emits `u/$` (ECMAScript GetSubstitution collapses the doubled
dollar), not the verbatim `u/$$`. -/
theorem C8_counterexample :
    buildReserveUrl (some ("u/" ++ phIsbn)) "貸出可" "$$" "S1" "A" = some "u/$" ∧
    ¬ buildReserveUrl (some ("u/" ++ phIsbn)) "貸出可" "$$" "S1" "A" = some ("u/" ++ "$$") := by
  constructor
  · decide
  · decide

/-- C8 (amended): the merger constructs a `reserveUrl` exactly when a
system-level reservation URL template exists (a JavaScript-truthy, i.e.
non-empty, `reserveurl` string) and the resolved lending status is not the
no-holdings status `蔵書なし`; no emitted entry with the no-holdings status
ever carries a reservation link; each placeholder is replaced at its first
occurrence by the ECMAScript substitution of the corresponding value, which
is the value itself whenever the value contains no dollar sign (as the
substitution escapes `$$`, `$&` and companions otherwise). -/
theorem C8_reserve_url_policy :
    (∀ resp libraries isbn entry,
        entry ∈ (formatBookResult resp libraries isbn).libraries →
        entry.status = "蔵書なし" → entry.reserveUrl = none) ∧
    (∀ ru st isbn systemId libKey,
        ((buildReserveUrl ru st isbn systemId libKey).isSome = true ↔
          ∃ t, ru = some t ∧ ¬ t = "" ∧ ¬ st = "蔵書なし")) ∧
    (∀ t st isbn systemId libKey, ¬ t = "" → ¬ st = "蔵書なし" →
        buildReserveUrl (some t) st isbn systemId libKey =
          some (jsReplace (jsReplace (jsReplace t phIsbn isbn) phSystemid systemId)
            phLibkey libKey)) ∧
    (∀ t1 t2 t3 t4 st isbn systemId libKey,
        ¬ dollarChar ∈ isbn.data → ¬ dollarChar ∈ systemId.data →
        ¬ dollarChar ∈ libKey.data →
        hasEarlyMatch phIsbn.data t1.data
          ((t2 ++ phSystemid ++ (t3 ++ phLibkey ++ t4)) : String).data = false →
        hasEarlyMatch phSystemid.data ((t1 ++ isbn ++ t2) : String).data
          ((t3 ++ phLibkey ++ t4) : String).data = false →
        hasEarlyMatch phLibkey.data ((t1 ++ isbn ++ t2 ++ systemId ++ t3) : String).data
          t4.data = false →
        ¬ st = "蔵書なし" →
        buildReserveUrl
            (some (t1 ++ phIsbn ++ (t2 ++ phSystemid ++ (t3 ++ phLibkey ++ t4))))
            st isbn systemId libKey =
          some (t1 ++ isbn ++ t2 ++ systemId ++ t3 ++ libKey ++ t4)) := by
  refine ⟨?_, ?_, ?_, ?_⟩
  · intro resp libraries isbn entry hmem hst
    cases hb : resp.books with
    | none => simp only [formatBookResult, hb] at hmem; simp at hmem
    | some books =>
        cases hl : assocLookup books isbn with
        | none =>
            simp only [formatBookResult, hb, hl] at hmem
            simp at hmem
        | some bookData =>
            simp only [formatBookResult, hb, hl] at hmem
            obtain ⟨ru, systemId, libKey, he⟩ :=
              formatSystems_reserveUrl libraries isbn bookData entry hmem
            rw [he, hst, buildReserveUrl_noHoldings]
  · intro ru st isbn systemId libKey
    cases ru with
    | none => simp [buildReserveUrl]
    | some t =>
        by_cases h : ¬ t = "" ∧ ¬ st = "蔵書なし"
        · simp only [buildReserveUrl, if_pos h, Option.isSome_some, true_iff]
          exact ⟨t, rfl, h.1, h.2⟩
        · simp only [buildReserveUrl, if_neg h]
          simp only [Option.isSome_none, Bool.false_eq_true, false_iff]
          intro hc
          obtain ⟨t2, he, h1, h2⟩ := hc
          cases Option.some.inj he
          exact h ⟨h1, h2⟩
  · intro t st isbn systemId libKey h1 h2
    simp [buildReserveUrl, h1, h2]
  · intro t1 t2 t3 t4 st isbn systemId libKey hd1 hd2 hd3 hE1 hE2 hE3 hst
    have hT : ¬ (t1 ++ phIsbn ++ (t2 ++ phSystemid ++ (t3 ++ phLibkey ++ t4))) = "" := by
      apply append_mid_ne_empty
      decide
    rw [buildReserveUrl]
    rw [if_pos ⟨hT, hst⟩]
    rw [jsReplace_splice_verbatim t1 (t2 ++ phSystemid ++ (t3 ++ phLibkey ++ t4))
      phIsbn isbn hE1 hd1]
    have hr1 : t1 ++ isbn ++ (t2 ++ phSystemid ++ (t3 ++ phLibkey ++ t4)) =
        (t1 ++ isbn ++ t2) ++ phSystemid ++ (t3 ++ phLibkey ++ t4) := by
      apply String.ext
      simp [ String.data_append, List.append_assoc]
    rw [hr1]
    rw [jsReplace_splice_verbatim (t1 ++ isbn ++ t2) (t3 ++ phLibkey ++ t4)
      phSystemid systemId hE2 hd2]
    have hr2 : (t1 ++ isbn ++ t2) ++ systemId ++ (t3 ++ phLibkey ++ t4) =
        ((t1 ++ isbn ++ t2) ++ systemId ++ t3) ++ phLibkey ++ t4 := by
      apply String.ext
      simp [ String.data_append, List.append_assoc]
    rw [hr2]
    rw [jsReplace_splice_verbatim ((t1 ++ isbn ++ t2) ++ systemId ++ t3) t4
      phLibkey libKey hE3 hd3]

/-- Witness for C8: a concrete template with all three placeholders,
substituted at a loanable status with dollar-free values. -/
theorem C8_witness :
    (¬ dollarChar ∈ ("42" : String).data ∧
      ¬ dollarChar ∈ ("S1" : String).data ∧
      ¬ dollarChar ∈ ("A" : String).data ∧
      hasEarlyMatch phIsbn.data ("u/" : String).data
        (("/" ++ phSystemid ++ ("/" ++ phLibkey ++ "")) : String).data = false ∧
      hasEarlyMatch phSystemid.data (("u/" ++ "42" ++ "/") : String).data
        (("/" ++ phLibkey ++ "") : String).data = false ∧
      hasEarlyMatch phLibkey.data (("u/" ++ "42" ++ "/" ++ "S1" ++ "/") : String).data
        ("" : String).data = false ∧
      ¬ ("貸出可" : String) = "蔵書なし") ∧
    buildReserveUrl (some ("u/" ++ phIsbn ++ ("/" ++ phSystemid ++ ("/" ++ phLibkey ++ ""))))
        "貸出可" "42" "S1" "A" =
      some ("u/" ++ "42" ++ "/" ++ "S1" ++ "/" ++ "A" ++ "") :=
  ⟨⟨by decide, by decide, by decide, by decide, by decide, by decide, by decide⟩,
    C8_reserve_url_policy.2.2.2 "u/" "/" "/" "" "貸出可" "42" "S1" "A"
      (by decide) (by decide) (by decide) (by decide) (by decide) (by decide) (by decide)⟩

/-- The inner merger loop distributes over concatenation of the key list. -/
lemma formatLibkeys_append (systemLibraries : List LibraryInfo) (ru : Option String)
    (isbn systemId : String) (a b : List (String × String)) :
    formatLibkeys systemLibraries ru isbn systemId (a ++ b) =
      formatLibkeys systemLibraries ru isbn systemId a ++
        formatLibkeys systemLibraries ru isbn systemId b := by
  induction a with
  | nil => simp [formatLibkeys]
  | cons hd tl ih =>
      obtain ⟨libKey, v⟩ := hd
      simp only [List.cons_append, formatLibkeys]
      cases hfind : systemLibraries.find? (fun lib => lib.libkey == libKey) <;>
        simp [hfind, ih]

/-- The outer merger loop distributes over concatenation of the system list. -/
lemma formatSystems_append (libraries : List LibraryInfo) (isbn : String)
    (a b : List (String × SystemData)) :
    formatSystems libraries isbn (a ++ b) =
      formatSystems libraries isbn a ++ formatSystems libraries isbn b := by
  induction a with
  | nil => simp [formatSystems]
  | cons hd tl ih =>
      obtain ⟨systemId, sdata⟩ := hd
      simp only [List.cons_append, formatSystems]
      by_cases hs : ¬ sdata.status = "OK" ∧ ¬ sdata.status = "Cache"
      · simp [hs, ih]
      · cases hlk : sdata.libkey <;> simp [hs, hlk, ih]

/-- C5: for every library key reported inside a usable system with a matching
directory record, the merger emits an entry whose `lendingStatus` is resolved
directly from the per-key value when that value is non-empty, and is the
unknown fallback `不明` when the raw payload carries no status code for the
key (the per-key string is empty) — the library is not omitted from the
report in either case. -/
theorem C5_lending_status_resolution
    (libraries : List LibraryInfo) (session isbn : String) (c : Nat)
    (bpre bpost : List (String × SystemData)) (systemId : String) (sdata : SystemData)
    (pre post : List (String × String)) (libKey v : String) (li : LibraryInfo)
    (husable : sdata.status = "OK" ∨ sdata.status = "Cache")
    (hlk : sdata.libkey = some (pre ++ (libKey, v) :: post))
    (hfind : (libraries.filter (fun lib => lib.systemid == systemId)).find?
        (fun lib => lib.libkey == libKey) = some li) :
    (¬ v = "" →
      (⟨li.formal, v, buildReserveUrl sdata.reserveurl v isbn systemId libKey⟩ : LibEntry)
        ∈ (formatBookResult ⟨session, c, some [(isbn, bpre ++ (systemId, sdata) :: bpost)]⟩
            libraries isbn).libraries) ∧
    (v = "" →
      (⟨li.formal, "不明", buildReserveUrl sdata.reserveurl "不明" isbn systemId libKey⟩ : LibEntry)
        ∈ (formatBookResult ⟨session, c, some [(isbn, bpre ++ (systemId, sdata) :: bpost)]⟩
            libraries isbn).libraries) := by
  have hskip : ¬ (¬ sdata.status = "OK" ∧ ¬ sdata.status = "Cache") := by
    rcases husable with h | h <;> simp [h]
  have h1 : formatSystems libraries isbn ((systemId, sdata) :: bpost) =
      formatLibkeys (libraries.filter (fun lib => lib.systemid == systemId))
        sdata.reserveurl isbn systemId (pre ++ (libKey, v) :: post)
        ++ formatSystems libraries isbn bpost := by
    simp only [formatSystems, if_neg hskip, hlk]
  have h2 : formatLibkeys (libraries.filter (fun lib => lib.systemid == systemId))
      sdata.reserveurl isbn systemId ((libKey, v) :: post) =
      ⟨li.formal, if v = "" then "不明" else v,
        buildReserveUrl sdata.reserveurl (if v = "" then "不明" else v) isbn systemId libKey⟩
        :: formatLibkeys (libraries.filter (fun lib => lib.systemid == systemId))
            sdata.reserveurl isbn systemId post := by
    simp only [formatLibkeys, hfind]
  have hentry : (⟨li.formal, if v = "" then "不明" else v,
      buildReserveUrl sdata.reserveurl (if v = "" then "不明" else v) isbn systemId libKey⟩ : LibEntry)
      ∈ (formatBookResult ⟨session, c, some [(isbn, bpre ++ (systemId, sdata) :: bpost)]⟩
          libraries isbn).libraries := by
    simp only [formatBookResult, assocLookup, beq_self_eq_true, if_true]
    rw [formatSystems_append, h1, formatLibkeys_append, h2]
    simp [List.mem_append]
  constructor
  · intro hv
    have h3 := hentry
    rw [if_neg hv] at h3
    exact h3
  · intro hv
    have h3 := hentry
    rw [if_pos hv] at h3
    exact h3

/-- Witness for C5: a usable system reporting key `A` with status `貸出可`
for a directory that expects key `A`. -/
theorem C5_witness :
    ((("OK" : String) = "OK" ∨ ("OK" : String) = "Cache") ∧
      (([mkLibrary "S1" "A" "中央図書館"].filter (fun lib => lib.systemid == "S1")).find?
        (fun lib => lib.libkey == "A") = some (mkLibrary "S1" "A" "中央図書館"))) ∧
    (⟨"中央図書館", "貸出可", buildReserveUrl none "貸出可" "4299062647" "S1" "A"⟩ : LibEntry)
      ∈ (formatBookResult
          ⟨"s", 0, some [("4299062647", [("S1", ⟨"OK", some [("A", "貸出可")], none⟩)])]⟩
          [mkLibrary "S1" "A" "中央図書館"] "4299062647").libraries :=
  ⟨⟨Or.inl rfl, by decide⟩,
    (C5_lending_status_resolution [mkLibrary "S1" "A" "中央図書館"] "s" "4299062647" 0
      [] [] "S1" ⟨"OK", some [("A", "貸出可")], none⟩ [] [] "A" "貸出可"
      (mkLibrary "S1" "A" "中央図書館") (Or.inl rfl) rfl (by decide)).1 (by decide)⟩

/-- The poll loop only consults the rounds inside its window. -/
lemma pollGo_congr (rounds rounds2 : Nat → RoundOutcome) (m : Nat) :
    ∀ fuel i, (∀ j, i ≤ j → j < i + fuel → rounds2 j = rounds j) →
      pollGo rounds2 m i fuel = pollGo rounds m i fuel := by
  intro fuel
  induction fuel with
  | zero => intro i _; rfl
  | succ n ih =>
      intro i h
      unfold pollGo
      rw [h i (Nat.le_refl i) (by omega)]
      cases rounds i with
      | transportError s => rfl
      | decodeError m2 => rfl
      | response r =>
          by_cases hc : r.cont = 0
          · simp [hc]
          · simp only [if_neg hc]
            exact ih (i + 1) (fun j hj1 hj2 => h j (by omega) (by omega))

/-- A window of rounds that all signal continuation exhausts the budget. -/
lemma pollGo_timeout (rounds : Nat → RoundOutcome) (m : Nat) :
    ∀ fuel i,
      (∀ j, i ≤ j → j < i + fuel →
        ∃ rj, rounds j = RoundOutcome.response rj ∧ rj.cont = 1) →
      pollGo rounds m i fuel = Except.error (pollTimeoutMsg m) := by
  intro fuel
  induction fuel with
  | zero => intro i _; rfl
  | succ n ih =>
      intro i h
      obtain ⟨ri, hri, hc⟩ := h i (Nat.le_refl i) (by omega)
      unfold pollGo
      rw [hri]
      have hc0 : ¬ ri.cont = 0 := by omega
      simp only [if_neg hc0]
      exact ih (i + 1) (fun j hj1 hj2 => h j (by omega) (by omega))

/-- The poll loop settles at the first round reporting completion. -/
lemma pollGo_settle (rounds : Nat → RoundOutcome) (m k : Nat) (r : BookResponse)
    (hr : rounds k = RoundOutcome.response r) (h0 : r.cont = 0)
    (hbefore : ∀ j, j < k →
      ∃ rj, rounds j = RoundOutcome.response rj ∧ ¬ rj.cont = 0) :
    ∀ fuel i, i ≤ k → k < i + fuel → pollGo rounds m i fuel = Except.ok r := by
  intro fuel
  induction fuel with
  | zero => intro i h1 h2; omega
  | succ n ih =>
      intro i h1 h2
      by_cases hik : i = k
      · subst hik
        unfold pollGo
        rw [hr]
        simp [h0]
      · obtain ⟨ri, hri, hc⟩ := hbefore i (by omega)
        unfold pollGo
        rw [hri]
        simp only [if_neg hc]
        exact ih (i + 1) (by omega) (by omega)

/-- C4: the poller never issues a continuation round after a response with
`continue = 0` has been observed (the result is fixed by the rounds up to
that point), consults at most the configured budget of 5 rounds, raises the
poll-timeout error reporting 5 rounds attempted when all 5 rounds report
`continue = 1`, and that error is distinct from every transport error;
moreover `checkBooks` never starts polling when the initial response does not
report `continue = 1`. -/
theorem C4_poller_budget_and_timeout
    (rounds rounds2 : Nat → RoundOutcome) (k : Nat) (r : BookResponse)
    (hk : k < 5) (hr : rounds k = RoundOutcome.response r) (h0 : r.cont = 0)
    (hbefore : ∀ j, j < k →
      ∃ rj, rounds j = RoundOutcome.response rj ∧ ¬ rj.cont = 0) :
    pollResults rounds 5 = Except.ok r ∧
    ((∀ j, j ≤ k → rounds2 j = rounds j) → pollResults rounds2 5 = Except.ok r) ∧
    ((∀ j, j < 5 → rounds2 j = rounds j) →
      pollResults rounds2 5 = pollResults rounds 5) ∧
    (∀ rall : Nat → RoundOutcome,
      (∀ j, j < 5 → ∃ rj, rall j = RoundOutcome.response rj ∧ rj.cont = 1) →
      pollResults rall 5 = Except.error (pollTimeoutMsg 5)) ∧
    pollTimeoutMsg 5 = "Polling timed out after 5 attempts" ∧
    (∀ s, ¬ pollTimeoutMsg 5 = apiFailMsg s) ∧
    (∀ isbn systemids (r2 : BookResponse) (rds : Nat → RoundOutcome),
      ¬ r2.cont = 1 →
      checkBooks isbn systemids (RoundOutcome.response r2) rds = Except.ok r2) := by
  refine ⟨?_, ?_, ?_, ?_, by decide, ?_, ?_⟩
  · exact pollGo_settle rounds 5 k r hr h0 hbefore 5 0 (by omega) (by omega)
  · intro hagree
    have hr2 : rounds2 k = RoundOutcome.response r := by
      rw [hagree k (Nat.le_refl k)]
      exact hr
    have hbefore2 : ∀ j, j < k →
        ∃ rj, rounds2 j = RoundOutcome.response rj ∧ ¬ rj.cont = 0 := by
      intro j hj
      rw [hagree j (by omega)]
      exact hbefore j hj
    exact pollGo_settle rounds2 5 k r hr2 h0 hbefore2 5 0 (by omega) (by omega)
  · intro hagree
    exact pollGo_congr rounds rounds2 5 5 0 (fun j hj1 hj2 => hagree j (by omega))
  · intro rall hall
    exact pollGo_timeout rall 5 5 0 (fun j hj1 hj2 => hall j (by omega))
  · intro s h
    have hd : (pollTimeoutMsg 5).data.head? = (apiFailMsg s).data.head? := by rw [h]
    have h1 : (pollTimeoutMsg 5).data.head? = some 'P' := by decide
    have h2 : (apiFailMsg s).data.head? = some 'A' := by
      unfold apiFailMsg
      rw [ String.data_append, List.head?_append]
      rw [ show ("API call failed with status: " : String).data.head? = some 'A' from by decide]
      rfl
    rw [h1, h2] at hd
    exact absurd hd (by decide)
  · intro isbn systemids r2 rds hc
    simp [checkBooks, hc]

/-- Witness for C4 at a concrete round sequence: rounds 0 and 1 signal
continuation, round 2 reports completion. -/
theorem C4_witness :
    (2 < 5 ∧
      (fun j => if j < 2 then RoundOutcome.response ⟨"s", 1, none⟩
        else RoundOutcome.response ⟨"s", 0, none⟩) 2
        = RoundOutcome.response ⟨"s", 0, none⟩ ∧
      (⟨"s", 0, none⟩ : BookResponse).cont = 0) ∧
    pollResults (fun j => if j < 2 then RoundOutcome.response ⟨"s", 1, none⟩
        else RoundOutcome.response ⟨"s", 0, none⟩) 5
      = Except.ok ⟨"s", 0, none⟩ ∧
    pollTimeoutMsg 5 = "Polling timed out after 5 attempts" :=
  ⟨⟨by decide, by decide, rfl⟩,
    (C4_poller_budget_and_timeout
      (fun j => if j < 2 then RoundOutcome.response ⟨"s", 1, none⟩
        else RoundOutcome.response ⟨"s", 0, none⟩)
      (fun _ => RoundOutcome.transportError 500) 2 ⟨"s", 0, none⟩
      (by decide) (by decide) rfl
      (fun j hj => ⟨⟨"s", 1, none⟩, by simp [hj], by decide⟩)).1,
    (C4_poller_budget_and_timeout
      (fun j => if j < 2 then RoundOutcome.response ⟨"s", 1, none⟩
        else RoundOutcome.response ⟨"s", 0, none⟩)
      (fun _ => RoundOutcome.transportError 500) 2 ⟨"s", 0, none⟩
      (by decide) (by decide) rfl
      (fun j hj => ⟨⟨"s", 1, none⟩, by simp [hj], by decide⟩)).2.2.2.2.1⟩

/-- C1 counterexample: for an area with zero libraries the facade returns
the error value `No libraries found in 千葉県, 千葉市`, not a successful
empty report. -/
theorem C1_counterexample :
    searchBookInCity "4299062647" "千葉県" "千葉市" (DirOutcome.payload (DirPayload.arr []))
        (RoundOutcome.response ⟨"s", 0, some []⟩) (fun _ => RoundOutcome.transportError 500)
      = SearchOutcome.err "No libraries found in 千葉県, 千葉市" ∧
    ¬ searchBookInCity "4299062647" "千葉県" "千葉市" (DirOutcome.payload (DirPayload.arr []))
        (RoundOutcome.response ⟨"s", 0, some []⟩) (fun _ => RoundOutcome.transportError 500)
      = SearchOutcome.report ⟨"4299062647", []⟩ := by
  constructor
  · decide
  · decide

/-- C1 (amended): for every area whose directory lookup returns zero
libraries, the facade returns the error value
`No libraries found in ${pref}, ${city}` without ever invoking the Poller
(the outcome is independent of every check/poll response). -/
theorem C1_zero_libraries_short_circuit
    (isbn pref city : String) (dir : DirOutcome)
    (check check2 : RoundOutcome) (rounds rounds2 : Nat → RoundOutcome)
    (h : getLibraries pref (some city) dir = Except.ok []) :
    searchBookInCity isbn pref city dir check rounds
      = SearchOutcome.err (noLibrariesMsg pref city) ∧
    searchBookInCity isbn pref city dir check rounds
      = searchBookInCity isbn pref city dir check2 rounds2 := by
  unfold searchBookInCity
  rw [h]
  simp

/-- Witness for C1 (amended) at a concrete empty directory payload. -/
theorem C1_witness :
    getLibraries "千葉県" (some "千葉市") (DirOutcome.payload (DirPayload.arr []))
      = Except.ok [] ∧
    searchBookInCity "4299062647" "千葉県" "千葉市" (DirOutcome.payload (DirPayload.arr []))
        (RoundOutcome.decodeError "boom") (fun _ => RoundOutcome.transportError 404)
      = SearchOutcome.err (noLibrariesMsg "千葉県" "千葉市") :=
  ⟨by decide,
    (C1_zero_libraries_short_circuit "4299062647" "千葉県" "千葉市"
      (DirOutcome.payload (DirPayload.arr []))
      (RoundOutcome.decodeError "boom") (RoundOutcome.transportError 1)
      (fun _ => RoundOutcome.transportError 404) (fun _ => RoundOutcome.transportError 2)
      (by decide)).1⟩

/-- C2: when a downstream stage (directory fetch/decode, or the check/poll
stage) fails with an error, the facade surfaces exactly that error message as
its error-valued result; it never converts the failure into a report. -/
theorem C2_error_propagation
    (isbn pref city e : String) (dir : DirOutcome) (check : RoundOutcome)
    (rounds : Nat → RoundOutcome)
    (h : getLibraries pref (some city) dir = Except.error e ∨
      ∃ libs, getLibraries pref (some city) dir = Except.ok libs ∧
        ¬ libs.length = 0 ∧
        checkBooks isbn (joinSystemIds libs) check rounds = Except.error e) :
    searchBookInCity isbn pref city dir check rounds = SearchOutcome.err e := by
  rcases h with h | ⟨libs, h1, h2, h3⟩
  · unfold searchBookInCity
    rw [h]
  · unfold searchBookInCity
    rw [h1]
    simp only [if_neg h2]
    rw [h3]

/-- Witness for C2 at a concrete transport failure of the directory stage. -/
theorem C2_witness :
    getLibraries "千葉県" (some "千葉市") (DirOutcome.transportError 503)
      = Except.error "API call failed with status: 503" ∧
    searchBookInCity "4299062647" "千葉県" "千葉市" (DirOutcome.transportError 503)
        (RoundOutcome.response ⟨"s", 0, some []⟩) (fun _ => RoundOutcome.transportError 500)
      = SearchOutcome.err "API call failed with status: 503" :=
  ⟨by decide,
    C2_error_propagation "4299062647" "千葉県" "千葉市" "API call failed with status: 503"
      (DirOutcome.transportError 503) (RoundOutcome.response ⟨"s", 0, some []⟩)
      (fun _ => RoundOutcome.transportError 500) (Or.inl (by decide))⟩

/-- C3 counterexample: an object-shaped directory payload holding one library
record is normalized to the empty list by `getLibraries`. -/
theorem C3_counterexample :
    getLibraries "東京都" none (DirOutcome.payload (DirPayload.obj
        [("Special_Agency", ⟨"国立国会図書館",
          [("本館", mkLibrary "Special_Agency" "本館" "国立国会図書館東京本館")]⟩)]))
      = Except.ok [] ∧
    dirPayloadLibraryCount (DirPayload.obj
        [("Special_Agency", ⟨"国立国会図書館",
          [("本館", mkLibrary "Special_Agency" "本館" "国立国会図書館東京本館")]⟩)]) = 1 := by
  constructor
  · decide
  · decide

/-- C3 (amended): the directory client returns a decoded flat-array payload
as-is, and normalizes every non-array (object-shaped) payload to the empty
list, regardless of the libraries it holds. -/
theorem C3_array_only_normalization (pref : String) (city : Option String)
    (libs : List LibraryInfo) (systems : List (String × SystemRecord)) :
    getLibraries pref city (DirOutcome.payload (DirPayload.arr libs)) = Except.ok libs ∧
    getLibraries pref city (DirOutcome.payload (DirPayload.obj systems)) = Except.ok [] :=
  ⟨rfl, rfl⟩

/-- C7: the merger emits no entry for a system whose status is outside
`OK`/`Cache` — removing such a system from the raw payload leaves the report
unchanged, so every library key under it is omitted. -/
theorem C7_unusable_system_omitted
    (libraries : List LibraryInfo) (isbn session session2 : String) (c c2 : Nat)
    (bpre bpost : List (String × SystemData)) (systemId : String) (sdata : SystemData)
    (h : ¬ sdata.status = "OK" ∧ ¬ sdata.status = "Cache") :
    formatBookResult ⟨session, c, some [(isbn, bpre ++ (systemId, sdata) :: bpost)]⟩
        libraries isbn
      = formatBookResult ⟨session2, c2, some [(isbn, bpre ++ bpost)]⟩ libraries isbn ∧
    formatSystems libraries isbn (bpre ++ (systemId, sdata) :: bpost)
      = formatSystems libraries isbn (bpre ++ bpost) := by
  have h2 : formatSystems libraries isbn (bpre ++ (systemId, sdata) :: bpost)
      = formatSystems libraries isbn (bpre ++ bpost) := by
    rw [formatSystems_append, formatSystems_append]
    congr 1
    simp only [formatSystems, if_pos h]
  refine ⟨?_, h2⟩
  simp only [formatBookResult, assocLookup, beq_self_eq_true, if_true, h2]

/-- Witness for C7: a system in `Running` status contributes nothing. -/
theorem C7_witness :
    (¬ ("Running" : String) = "OK" ∧ ¬ ("Running" : String) = "Cache") ∧
    formatBookResult ⟨"s", 0, some [("9", [("S1", ⟨"Running", some [("A", "貸出可")], none⟩)])]⟩
        [mkLibrary "S1" "A" "L"] "9"
      = formatBookResult ⟨"t", 1, some [("9", [])]⟩ [mkLibrary "S1" "A" "L"] "9" :=
  ⟨by decide,
    (C7_unusable_system_omitted [mkLibrary "S1" "A" "L"] "9" "s" "t" 0 1
      [] [] "S1" ⟨"Running", some [("A", "貸出可")], none⟩ (by decide)).1⟩

/-- C9: when the raw check payload has no entry for the requested isbn (or no
`books` map at all), the merger returns the successful empty report
`{ isbn, libraries: [] }`, and the facade surfaces it as a report, not as an
error. -/
theorem C9_missing_isbn_empty_report
    (resp : BookResponse) (libraries libs : List LibraryInfo)
    (isbn pref city : String) (dir : DirOutcome) (check : RoundOutcome)
    (rounds : Nat → RoundOutcome)
    (h : resp.books = none ∨
      ∃ books, resp.books = some books ∧ assocLookup books isbn = none)
    (hdir : getLibraries pref (some city) dir = Except.ok libs)
    (hne : ¬ libs.length = 0)
    (hcheck : checkBooks isbn (joinSystemIds libs) check rounds = Except.ok resp) :
    formatBookResult resp libraries isbn = ⟨isbn, []⟩ ∧
    searchBookInCity isbn pref city dir check rounds
      = SearchOutcome.report ⟨isbn, []⟩ := by
  have h1 : ∀ libs2, formatBookResult resp libs2 isbn = ⟨isbn, []⟩ := by
    intro libs2
    rcases h with hb | ⟨books, hb, hl⟩
    · simp [formatBookResult, hb]
    · simp [formatBookResult, hb, hl]
  refine ⟨h1 libraries, ?_⟩
  unfold searchBookInCity
  rw [hdir]
  simp only [if_neg hne]
  rw [hcheck]
  simp [h1]

/-- Witness for C9: a check payload carrying data only for another isbn. -/
theorem C9_witness :
    ((⟨"s", 0, some [("4000000000", [])]⟩ : BookResponse).books
        = some [("4000000000", [])] ∧
      assocLookup [("4000000000", ([] : List (String × SystemData)))] "4299062647" = none) ∧
    searchBookInCity "4299062647" "千葉県" "千葉市"
        (DirOutcome.payload (DirPayload.arr [mkLibrary "S1" "A" "L"]))
        (RoundOutcome.response ⟨"s", 0, some [("4000000000", [])]⟩)
        (fun _ => RoundOutcome.transportError 500)
      = SearchOutcome.report ⟨"4299062647", []⟩ :=
  ⟨⟨rfl, by decide⟩,
    (C9_missing_isbn_empty_report ⟨"s", 0, some [("4000000000", [])]⟩
      [mkLibrary "S1" "A" "L"] [mkLibrary "S1" "A" "L"] "4299062647" "千葉県" "千葉市"
      (DirOutcome.payload (DirPayload.arr [mkLibrary "S1" "A" "L"]))
      (RoundOutcome.response ⟨"s", 0, some [("4000000000", [])]⟩)
      (fun _ => RoundOutcome.transportError 500)
      (Or.inr ⟨[("4000000000", [])], rfl, by decide⟩)
      (by decide) (by decide) (by decide)).2⟩

/-- C10: when a placeholder occurs more than once in a reservation URL
template, the merger substitutes only its first occurrence — the text around
the matched region, the later occurrence included, survives verbatim in the
emitted `reserveUrl`.  Stated in full generality for one `.replace` call
(any replacement value, with the ECMAScript substitution of the value
spliced in), then for each of the three placeholders with a dollar-free
value (so the substitution is the value itself), and for the full merger on
a doubled isbn placeholder. -/
theorem C10_first_occurrence_substitution :
    (∀ t1 t2 t3 pat rep : String,
      hasEarlyMatch pat.data t1.data ((t2 ++ pat ++ t3) : String).data = false →
      jsReplace (t1 ++ pat ++ (t2 ++ pat ++ t3)) pat rep
        = t1 ++ String.mk (getSubstitution pat.data t1.data
            ((t2 ++ pat ++ t3) : String).data rep.data) ++ (t2 ++ pat ++ t3)) ∧
    (∀ t1 t2 t3 st isbn systemId libKey,
      ¬ dollarChar ∈ isbn.data →
      hasEarlyMatch phIsbn.data t1.data ((t2 ++ phIsbn ++ t3) : String).data = false →
      hasMatch phSystemid.data ((t1 ++ isbn ++ (t2 ++ phIsbn ++ t3)) : String).data = false →
      hasMatch phLibkey.data ((t1 ++ isbn ++ (t2 ++ phIsbn ++ t3)) : String).data = false →
      ¬ st = "蔵書なし" →
      buildReserveUrl (some (t1 ++ phIsbn ++ (t2 ++ phIsbn ++ t3))) st isbn systemId libKey
        = some (t1 ++ isbn ++ (t2 ++ phIsbn ++ t3))) ∧
    (∀ t1 t2 t3 st isbn systemId libKey,
      ¬ dollarChar ∈ systemId.data →
      hasMatch phIsbn.data ((t1 ++ phSystemid ++ (t2 ++ phSystemid ++ t3)) : String).data
        = false →
      hasEarlyMatch phSystemid.data t1.data ((t2 ++ phSystemid ++ t3) : String).data = false →
      hasMatch phLibkey.data ((t1 ++ systemId ++ (t2 ++ phSystemid ++ t3)) : String).data
        = false →
      ¬ st = "蔵書なし" →
      buildReserveUrl (some (t1 ++ phSystemid ++ (t2 ++ phSystemid ++ t3)))
          st isbn systemId libKey
        = some (t1 ++ systemId ++ (t2 ++ phSystemid ++ t3))) ∧
    (∀ t1 t2 t3 st isbn systemId libKey,
      ¬ dollarChar ∈ libKey.data →
      hasMatch phIsbn.data ((t1 ++ phLibkey ++ (t2 ++ phLibkey ++ t3)) : String).data
        = false →
      hasMatch phSystemid.data ((t1 ++ phLibkey ++ (t2 ++ phLibkey ++ t3)) : String).data
        = false →
      hasEarlyMatch phLibkey.data t1.data ((t2 ++ phLibkey ++ t3) : String).data = false →
      ¬ st = "蔵書なし" →
      buildReserveUrl (some (t1 ++ phLibkey ++ (t2 ++ phLibkey ++ t3)))
          st isbn systemId libKey
        = some (t1 ++ libKey ++ (t2 ++ phLibkey ++ t3))) ∧
    (∀ libraries session (c : Nat) systemId (li : LibraryInfo) libKey v t1 t2 t3 isbn,
      (libraries.filter (fun lib => lib.systemid == systemId)).find?
          (fun lib => lib.libkey == libKey) = some li →
      ¬ v = "" → ¬ v = "蔵書なし" →
      ¬ dollarChar ∈ isbn.data →
      hasEarlyMatch phIsbn.data t1.data ((t2 ++ phIsbn ++ t3) : String).data = false →
      hasMatch phSystemid.data ((t1 ++ isbn ++ (t2 ++ phIsbn ++ t3)) : String).data = false →
      hasMatch phLibkey.data ((t1 ++ isbn ++ (t2 ++ phIsbn ++ t3)) : String).data = false →
      (formatBookResult ⟨session, c, some [(isbn, [(systemId,
          ⟨"OK", some [(libKey, v)], some (t1 ++ phIsbn ++ (t2 ++ phIsbn ++ t3))⟩)])]⟩
        libraries isbn).libraries
        = [⟨li.formal, v, some (t1 ++ isbn ++ (t2 ++ phIsbn ++ t3))⟩]) := by
  have hsub1 : ∀ t1 t2 t3 st isbn systemId libKey,
      ¬ dollarChar ∈ isbn.data →
      hasEarlyMatch phIsbn.data t1.data ((t2 ++ phIsbn ++ t3) : String).data = false →
      hasMatch phSystemid.data ((t1 ++ isbn ++ (t2 ++ phIsbn ++ t3)) : String).data = false →
      hasMatch phLibkey.data ((t1 ++ isbn ++ (t2 ++ phIsbn ++ t3)) : String).data = false →
      ¬ st = "蔵書なし" →
      buildReserveUrl (some (t1 ++ phIsbn ++ (t2 ++ phIsbn ++ t3))) st isbn systemId libKey
        = some (t1 ++ isbn ++ (t2 ++ phIsbn ++ t3)) := by
    intro t1 t2 t3 st isbn systemId libKey hd hE hS hL hst
    have hT : ¬ (t1 ++ phIsbn ++ (t2 ++ phIsbn ++ t3)) = "" := by
      apply append_mid_ne_empty
      decide
    rw [buildReserveUrl, if_pos ⟨hT, hst⟩]
    rw [jsReplace_splice_verbatim t1 (t2 ++ phIsbn ++ t3) phIsbn isbn hE hd]
    rw [jsReplace_of_no_match (t1 ++ isbn ++ (t2 ++ phIsbn ++ t3)) phSystemid systemId hS]
    rw [jsReplace_of_no_match (t1 ++ isbn ++ (t2 ++ phIsbn ++ t3)) phLibkey libKey hL]
  refine ⟨?_, hsub1, ?_, ?_, ?_⟩
  · intro t1 t2 t3 pat rep hE
    exact jsReplace_splice t1 (t2 ++ pat ++ t3) pat rep hE
  · intro t1 t2 t3 st isbn systemId libKey hd hI hE hL hst
    have hT : ¬ (t1 ++ phSystemid ++ (t2 ++ phSystemid ++ t3)) = "" := by
      apply append_mid_ne_empty
      decide
    rw [buildReserveUrl, if_pos ⟨hT, hst⟩]
    rw [jsReplace_of_no_match (t1 ++ phSystemid ++ (t2 ++ phSystemid ++ t3)) phIsbn isbn hI]
    rw [jsReplace_splice_verbatim t1 (t2 ++ phSystemid ++ t3) phSystemid systemId hE hd]
    rw [jsReplace_of_no_match (t1 ++ systemId ++ (t2 ++ phSystemid ++ t3)) phLibkey libKey hL]
  · intro t1 t2 t3 st isbn systemId libKey hd hI hS hE hst
    have hT : ¬ (t1 ++ phLibkey ++ (t2 ++ phLibkey ++ t3)) = "" := by
      apply append_mid_ne_empty
      decide
    rw [buildReserveUrl, if_pos ⟨hT, hst⟩]
    rw [jsReplace_of_no_match (t1 ++ phLibkey ++ (t2 ++ phLibkey ++ t3)) phIsbn isbn hI]
    rw [jsReplace_of_no_match (t1 ++ phLibkey ++ (t2 ++ phLibkey ++ t3)) phSystemid systemId hS]
    rw [jsReplace_splice_verbatim t1 (t2 ++ phLibkey ++ t3) phLibkey libKey hE hd]
  · intro libraries session c systemId li libKey v t1 t2 t3 isbn hfind hv hnh hd hE hS hL
    have hskip : ¬ (¬ ("OK" : String) = "OK" ∧ ¬ ("OK" : String) = "Cache") := by
      simp
    simp only [formatBookResult, assocLookup, beq_self_eq_true, if_true]
    simp only [formatSystems, if_neg hskip, formatLibkeys, hfind]
    rw [if_neg hv]
    rw [hsub1 t1 t2 t3 v isbn systemId libKey hd hE hS hL hnh]
    simp

/-- Witness for C10: a template in which the isbn placeholder occurs twice;
only the first occurrence is substituted. -/
theorem C10_witness :
    (¬ dollarChar ∈ ("42" : String).data ∧
      hasEarlyMatch phIsbn.data ("u/" : String).data (("/" ++ phIsbn ++ "") : String).data
        = false ∧
      hasMatch phSystemid.data (("u/" ++ "42" ++ ("/" ++ phIsbn ++ "")) : String).data
        = false ∧
      hasMatch phLibkey.data (("u/" ++ "42" ++ ("/" ++ phIsbn ++ "")) : String).data
        = false ∧
      ¬ ("貸出可" : String) = "蔵書なし") ∧
    buildReserveUrl (some ("u/" ++ phIsbn ++ ("/" ++ phIsbn ++ ""))) "貸出可" "42" "S1" "A"
      = some ("u/" ++ "42" ++ ("/" ++ phIsbn ++ "")) :=
  ⟨⟨by decide, by decide, by decide, by decide, by decide⟩,
    C10_first_occurrence_substitution.2.1 "u/" "/" "" "貸出可" "42" "S1" "A"
      (by decide) (by decide) (by decide) (by decide) (by decide)⟩
